import Mathlib

/-!
Shallow embedding of the cricket scorecard backend (src/main.py, src/schemas.py).

Conventions of the embedding:
* Python `int` is modelled as `ℤ`, counts as `ℕ`.
* Python `float` values are modelled by the exact rational they denote.
  In `strike_rate`, `runs / balls` is a correctly rounded IEEE binary64
  division and `* 100` a binary64 multiplication: both are modelled by `fl`,
  which rounds the exact rational to 53 significant bits, to nearest, ties
  to even.  `round(x, 2)` rounds the decimal expansion of the float `x`
  half-to-even at two fractional digits (CPython produces the correctly
  rounded decimal); its result is modelled as that exact decimal, which is
  what the resulting float prints and serialises as.  Overflow and
  subnormals lie outside the magnitudes exercised here.
* `datetime` values are modelled as integer timestamps (`ℤ`); `isoformat` and
  `str` renderings of dates are injective, so the timestamp itself stands for
  the rendered value.
* The document store (`database.py` is not part of src/; `db`, `create_document`
  and `get_documents` are imported from it) is modelled from the spec:
  the Record Store holds a `player` collection and an `innings` collection,
  supports find-by-key, find-all-by-foreign-key with sort by date, and
  group-by-foreign-key aggregation with sum/count.  Collections are lists of
  documents; insertion appends.
* A Mongo `ObjectId` round-trips through its 24-character lowercase hex string,
  so it is modelled as that canonical string; parsing an externally supplied
  string accepts 24 hex characters of either case and canonicalises to
  lowercase (`bson.ObjectId`).
-/

deriving instance DecidableEq for Except

namespace Cricket

/-- Error outcomes raised by the handlers (`HTTPException` in main.py, and the
framework-level request validation failure for out-of-bounds payloads). -/
inductive ApiError where
  | invalidIdFormat
  | playerNotFound
  | validationError
deriving DecidableEq, Repr

/-- HTTP status code attached to each error (400 / 404 / 422). -/
def ApiError.status : ApiError → Nat
  | .invalidIdFormat => 400
  | .playerNotFound => 404
  | .validationError => 422

/-- Character-level hex-digit test used by `bson.ObjectId`'s string validation. -/
def isHexChar (c : Char) : Bool :=
  (('0' ≤ c) && (c ≤ '9')) || (('a' ≤ c) && (c ≤ 'f')) || (('A' ≤ c) && (c ≤ 'F'))

/-- Lowercasing of a string, character by character (canonical ObjectId form). -/
def strToLower (s : String) : String :=
  ⟨s.data.map Char.toLower⟩

/-- A string is accepted by `bson.ObjectId` iff it is 24 hex characters. -/
def oidValid (s : String) : Bool :=
  s.data.length == 24 && s.data.all isHexChar

/-- Embedding of `to_object_id` (main.py:28-32): parse the identifier string,
raising a 400 `HTTPException` on malformed input.  The parsed `ObjectId` is
represented by its canonical lowercase hex string. -/
def to_object_id (s : String) : Except ApiError String :=
  if oidValid s then .ok (strToLower s) else .error .invalidIdFormat

/-- Round-half-to-even to an integer: the rounding rule of IEEE binary64
arithmetic and of Python `round`. -/
def roundHalfEven (q : ℚ) : ℤ :=
  if q - ⌊q⌋ < 1/2 then ⌊q⌋
  else if 1/2 < q - ⌊q⌋ then ⌊q⌋ + 1
  else if ⌊q⌋ % 2 = 0 then ⌊q⌋ else ⌊q⌋ + 1

/-- Python `round(q, 2)` applied to a float whose exact value is `q`:
round-half-to-even at two fractional digits of the decimal expansion.  The
float it returns prints and serialises as this decimal, which the model
keeps exactly. -/
def round2 (q : ℚ) : ℚ :=
  (roundHalfEven (q * 100) : ℚ) / 100

/-- Rounding of an exact rational to the nearest IEEE binary64 value
(53-bit significand, round-to-nearest, ties to even), expressed as the
exact rational that the resulting float denotes.  Overflow and subnormal
ranges are not modelled; the magnitudes used here stay well inside the
normal range. -/
def fl (q : ℚ) : ℚ :=
  if q = 0 then 0
  else (roundHalfEven (q / (2:ℚ) ^ (Int.log 2 |q| - 52)) : ℚ) *
    (2:ℚ) ^ (Int.log 2 |q| - 52)

/-- Embedding of `strike_rate` (main.py:35-38) over binary64 arithmetic:
`0.0` for `balls <= 0`; otherwise `runs / balls` is a correctly rounded
float division, `* 100` a float multiplication, and the result is
`round(x, 2)` of the product float `x`. -/
def strike_rate (runs balls : ℤ) : ℚ :=
  if balls ≤ 0 then 0 else round2 (fl (fl ((runs : ℚ) / (balls : ℚ)) * 100))

example : strike_rate 7 0 = 0 := by norm_num [strike_rate]

/-! ## Data model

Documents of the two Record Store collections, modelled from the spec
(§3, §6): a `player` collection and an `innings` collection whose documents
carry a `player_id` string foreign key.  The store key `_id` is modelled by
its canonical lowercase hex string (`str(doc["_id"])`). -/

/-- A document of the `player` collection. -/
structure PlayerDoc where
  _id : String
  name : String
  role : Option String
deriving DecidableEq, Repr

/-- A document of the `innings` collection (fields of `schemas.Innings` plus
the generated `_id`; `date` is an integer timestamp, always set on insert). -/
structure InningsDoc where
  _id : String
  player_id : String
  runs : ℤ
  balls : ℤ
  fours : ℤ
  sixes : ℤ
  out : Bool
  opposition : Option String
  venue : Option String
  date : Option ℤ
deriving DecidableEq, Repr

/-- Modelled from the spec: the Record Store state, one list per collection
(document order is insertion order). -/
structure DB where
  players : List PlayerDoc
  innings : List InningsDoc
deriving DecidableEq, Repr

/-- Mongo date comparison used by `sort("date", ...)`: a missing date sorts
below every present date. -/
def dateLeB : Option ℤ → Option ℤ → Bool
  | none, _ => true
  | some _, none => false
  | some a, some b => decide (a ≤ b)

/-- Ascending date order on innings documents (`sort("date", 1)`). -/
def inningsDateAsc (a b : InningsDoc) : Prop :=
  dateLeB a.date b.date = true

/-- Descending date order on innings documents (`sort("date", -1)`). -/
def inningsDateDesc (a b : InningsDoc) : Prop :=
  dateLeB b.date a.date = true

instance : DecidableRel inningsDateAsc :=
  fun a b => inferInstanceAs (Decidable (dateLeB a.date b.date = true))

instance : DecidableRel inningsDateDesc :=
  fun a b => inferInstanceAs (Decidable (dateLeB b.date a.date = true))

theorem dateLeB_total (x y : Option ℤ) : dateLeB x y = true ∨ dateLeB y x = true := by
  match x, y with
  | none, _ => exact Or.inl rfl
  | some _, none => exact Or.inr rfl
  | some a, some b => simpa [dateLeB] using Int.le_total a b

theorem dateLeB_trans {x y z : Option ℤ} (h1 : dateLeB x y = true)
    (h2 : dateLeB y z = true) : dateLeB x z = true := by
  match x, y, z with
  | none, _, _ => rfl
  | some _, none, _ => exact absurd h1 (by simp [dateLeB])
  | some _, some _, none => exact absurd h2 (by simp [dateLeB])
  | some a, some b, some c =>
    simp only [dateLeB, decide_eq_true_eq] at h1 h2 ⊢
    omega

instance : IsTotal InningsDoc inningsDateAsc :=
  ⟨fun a b => dateLeB_total a.date b.date⟩

instance : IsTrans InningsDoc inningsDateAsc :=
  ⟨fun _ _ _ => dateLeB_trans⟩

instance : IsTotal InningsDoc inningsDateDesc :=
  ⟨fun a b => (dateLeB_total b.date a.date)⟩

instance : IsTrans InningsDoc inningsDateDesc :=
  ⟨fun _ _ _ h1 h2 => dateLeB_trans h2 h1⟩

/-- Modelled from the spec: the store query `find({"player_id": pid})` —
all innings documents whose foreign key equals the given string. -/
def inningsMatching (docs : List InningsDoc) (pid : String) : List InningsDoc :=
  docs.filter (fun i => i.player_id == pid)

/-- Result of the `$match` + `$group`/`$sum` aggregation pipeline over the
`innings` collection, together with the `next(agg, None) or {zeros}` default
(a group over no documents yields the all-zero record).  Modelled from the
spec: group-by-foreign-key with sum/count. -/
structure AggStats where
  runs : ℤ
  balls : ℤ
  fours : ℤ
  sixes : ℤ
  innings : ℕ
deriving DecidableEq, Repr

/-- The aggregation pipeline of main.py:97-108 and main.py:141-152. -/
def aggregateInnings (docs : List InningsDoc) (pid : String) : AggStats :=
  let m := inningsMatching docs pid
  { runs := (m.map InningsDoc.runs).sum
    balls := (m.map InningsDoc.balls).sum
    fours := (m.map InningsDoc.fours).sum
    sixes := (m.map InningsDoc.sixes).sum
    innings := m.length }

/-- Career totals block of the list and detail responses. -/
structure Career where
  total_runs : ℤ
  total_balls : ℤ
  total_fours : ℤ
  total_sixes : ℤ
  innings_count : ℕ
  strike_rate : ℚ
deriving DecidableEq, Repr

/-- Career block computed from aggregation stats (main.py:161-168). -/
def careerOf (s : AggStats) : Career :=
  { total_runs := s.runs, total_balls := s.balls, total_fours := s.fours,
    total_sixes := s.sixes, innings_count := s.innings,
    strike_rate := strike_rate s.runs s.balls }

/-- One element of the `GET /players` response (main.py:111-121). -/
structure PlayerSummary where
  _id : String
  name : String
  role : Option String
  total_runs : ℤ
  total_balls : ℤ
  total_fours : ℤ
  total_sixes : ℤ
  innings_count : ℕ
  strike_rate : ℚ
deriving DecidableEq, Repr

/-- Embedding of `list_players` (main.py:91-122): one summary per player
document, with totals aggregated by the canonical id string `str(p["_id"])`. -/
def list_players (db : DB) : List PlayerSummary :=
  db.players.map (fun p =>
    let stats := aggregateInnings db.innings p._id
    { _id := p._id, name := p.name, role := p.role,
      total_runs := stats.runs, total_balls := stats.balls,
      total_fours := stats.fours, total_sixes := stats.sixes,
      innings_count := stats.innings,
      strike_rate := strike_rate stats.runs stats.balls })

/-- An innings document as it appears in the detail response: the stored
fields (with `_id` stringified and `date` in ISO form, both identity in this
model) plus the per-innings `strike_rate` annotation (main.py:133-139). -/
structure InningsView where
  doc : InningsDoc
  strike_rate : ℚ
deriving DecidableEq, Repr

/-- Annotation step of main.py:134-139. -/
def annotate (i : InningsDoc) : InningsView :=
  ⟨i, strike_rate i.runs i.balls⟩

/-- Body of the `GET /players/{player_id}` response (main.py:156-169). -/
structure PlayerDetail where
  _id : String
  name : String
  role : Option String
  innings : List InningsView
  career : Career
deriving DecidableEq, Repr

/-- Modelled from the spec: the store query `find_one({"_id": oid})` on the
`player` collection, `oid` given in canonical string form. -/
def findPlayer (db : DB) (oid : String) : Option PlayerDoc :=
  db.players.find? (fun p => p._id == oid)

/-- Embedding of `get_player` (main.py:125-169).  Note that the player is
looked up by the parsed (canonicalised) id, while the innings query and the
aggregation `$match` both use the raw `player_id` string. -/
def get_player (db : DB) (player_id : String) : Except ApiError PlayerDetail :=
  match to_object_id player_id with
  | .error e => .error e
  | .ok oid =>
    match findPlayer db oid with
    | none => .error .playerNotFound
    | some p =>
      let sorted := List.insertionSort inningsDateDesc (inningsMatching db.innings player_id)
      let stats := aggregateInnings db.innings player_id
      .ok { _id := p._id, name := p.name, role := p.role,
            innings := sorted.map annotate,
            career := careerOf stats }

/-- Player block of the JSON export body (main.py:206). -/
structure PlayerInfo where
  _id : String
  name : String
  role : Option String
deriving DecidableEq, Repr

/-- Body of the JSON export: player fields and the raw innings documents
(with `_id` stringified and `date` in ISO form, both identity here); no
career block and no per-innings strike-rate annotation (main.py:200-206). -/
structure ExportJson where
  player : PlayerInfo
  innings : List InningsDoc
deriving DecidableEq, Repr

/-- One data row of the CSV export (main.py:218-228); `date` stands for its
rendered form, `opposition`/`venue` default to the empty string. -/
structure CsvRow where
  date : Option ℤ
  opposition : String
  venue : String
  runs : ℤ
  balls : ℤ
  fours : ℤ
  sixes : ℤ
  outLabel : String
  strike_rate : ℚ
deriving DecidableEq, Repr

/-- Result of the export endpoint: a JSON body or a CSV attachment. -/
inductive ExportResult where
  | jsonBody (body : ExportJson)
  | csvFile (filename : String) (rows : List CsvRow)
deriving DecidableEq, Repr

/-- CSV row built from one innings document (main.py:212-228). -/
def csvRowOf (i : InningsDoc) : CsvRow :=
  { date := i.date, opposition := i.opposition.getD "", venue := i.venue.getD "",
    runs := i.runs, balls := i.balls, fours := i.fours, sixes := i.sixes,
    outLabel := if i.out then "Out" else "Not Out",
    strike_rate := strike_rate i.runs i.balls }

/-- Embedding of `export_player` (main.py:192-232).  `format` is the query
parameter (`none` means omitted, defaulting to csv); innings are sorted
ascending by date; the JSON body carries the raw documents. -/
def export_player (db : DB) (player_id : String) (format : Option String) :
    Except ApiError ExportResult :=
  match to_object_id player_id with
  | .error e => .error e
  | .ok oid =>
    match findPlayer db oid with
    | none => .error .playerNotFound
    | some p =>
      let sorted := List.insertionSort inningsDateAsc (inningsMatching db.innings player_id)
      if format == some "json" then
        .ok (.jsonBody { player := ⟨p._id, p.name, p.role⟩, innings := sorted })
      else
        .ok (.csvFile (p.name ++ "_career.csv") (sorted.map csvRowOf))

/-! ## Creation endpoints -/

/-- Request body of `POST /players` (`schemas.Player`): the raw field values
before FastAPI/pydantic bound checking. -/
structure PlayerPayload where
  name : String
  role : Option String
deriving DecidableEq, Repr

/-- Pydantic bounds of `schemas.Player` (schemas.py:8-10):
`name` between 1 and 100 characters. -/
def playerPayloadOk (p : PlayerPayload) : Bool :=
  decide (1 ≤ p.name.length) && decide (p.name.length ≤ 100)

/-- Request body of `POST /innings` (`schemas.Innings`), after pydantic has
filled the defaults (`fours = 0`, `sixes = 0`, `out = true`). -/
structure InningsPayload where
  player_id : String
  runs : ℤ
  balls : ℤ
  fours : ℤ
  sixes : ℤ
  out : Bool
  opposition : Option String
  venue : Option String
  date : Option ℤ
deriving DecidableEq, Repr

/-- Pydantic bounds of `schemas.Innings` (schemas.py:12-21): runs and balls
in 0..400, fours and sixes in 0..200, opposition and venue at most 100
characters. -/
def inningsPayloadOk (p : InningsPayload) : Bool :=
  decide (0 ≤ p.runs) && decide (p.runs ≤ 400) &&
  decide (0 ≤ p.balls) && decide (p.balls ≤ 400) &&
  decide (0 ≤ p.fours) && decide (p.fours ≤ 200) &&
  decide (0 ≤ p.sixes) && decide (p.sixes ≤ 200) &&
  (p.opposition.all fun s => decide (s.length ≤ 100)) &&
  (p.venue.all fun s => decide (s.length ≤ 100))

/-- Embedding of `create_player` (main.py:85-88): insert the player document
(`newId` stands for the store-generated key) and echo its fields.  Returns
the response together with the post-state of the store. -/
def create_player (db : DB) (payload : PlayerPayload) (newId : String) :
    PlayerInfo × DB :=
  (⟨newId, payload.name, payload.role⟩,
   { db with players := db.players ++ [⟨newId, payload.name, payload.role⟩] })

/-- Embedding of `add_innings` (main.py:172-189): parse `player_id`, check
the player exists, default the date to `now`, insert the document.  Returns
the response together with the post-state of the store. -/
def add_innings (db : DB) (payload : InningsPayload) (newId : String) (now : ℤ) :
    (Except ApiError String) × DB :=
  match to_object_id payload.player_id with
  | .error e => (.error e, db)
  | .ok oid =>
    match findPlayer db oid with
    | none => (.error .playerNotFound, db)
    | some _ =>
      let doc : InningsDoc :=
        { _id := newId, player_id := payload.player_id, runs := payload.runs,
          balls := payload.balls, fours := payload.fours, sixes := payload.sixes,
          out := payload.out, opposition := payload.opposition, venue := payload.venue,
          date := some (payload.date.getD now) }
      (.ok newId, { db with innings := db.innings ++ [doc] })

/-- Full `POST /players` pipeline: FastAPI validates the payload against the
pydantic bounds before the handler runs; out-of-bounds payloads are rejected
with a 422 validation error and never reach the store. -/
def post_players (db : DB) (payload : PlayerPayload) (newId : String) :
    (Except ApiError PlayerInfo) × DB :=
  if playerPayloadOk payload then
    let r := create_player db payload newId
    (.ok r.1, r.2)
  else (.error .validationError, db)

/-- Full `POST /innings` pipeline: pydantic bound checking, then the handler. -/
def post_innings (db : DB) (payload : InningsPayload) (newId : String) (now : ℤ) :
    (Except ApiError String) × DB :=
  if inningsPayloadOk payload then add_innings db payload newId now
  else (.error .validationError, db)

/-! ## Key-value rendering of response items

To compare the detail view and the export view field by field (they are
Python dicts), response items are rendered as key-value lists over a small
value type. -/

/-- A JSON-serialisable field value of a response item. -/
inductive Value where
  | s (v : String)
  | i (v : ℤ)
  | q (v : ℚ)
  | b (v : Bool)
  | null
deriving DecidableEq, Repr

/-- Optional string field as a JSON value. -/
def optStr : Option String → Value
  | none => .null
  | some v => .s v

/-- Optional date field as a JSON value. -/
def optDate : Option ℤ → Value
  | none => .null
  | some v => .i v

/-- Key-value rendering of a stored innings document as serialised in the
JSON export body. -/
def kvOfDoc (i : InningsDoc) : List (String × Value) :=
  [("_id", .s i._id), ("player_id", .s i.player_id), ("runs", .i i.runs),
   ("balls", .i i.balls), ("fours", .i i.fours), ("sixes", .i i.sixes),
   ("out", .b i.out), ("opposition", optStr i.opposition),
   ("venue", optStr i.venue), ("date", optDate i.date)]

/-- Key-value rendering of an annotated innings item of the detail view:
the stored fields plus the appended `strike_rate` key. -/
def kvOfView (v : InningsView) : List (String × Value) :=
  kvOfDoc v.doc ++ [("strike_rate", .q v.strike_rate)]

/-! ## Concrete fixtures -/

/-- Canonical id of the first example player. -/
def pidA : String := "aabbccddeeff001122334455"

/-- Canonical id of the second example player (no innings). -/
def pidB : String := "ffeeddccbbaa998877665544"

/-- Example player with two innings. -/
def playerA : PlayerDoc := ⟨pidA, "Alice", some "Batter"⟩

/-- Example player with zero innings. -/
def playerB : PlayerDoc := ⟨pidB, "Bob", none⟩

/-- First innings of `playerA`: 50 runs off 40 balls. -/
def innA1 : InningsDoc :=
  { _id := "000000000000000000000001", player_id := pidA, runs := 50, balls := 40,
    fours := 5, sixes := 1, out := true, opposition := some "India",
    venue := some "MCG", date := some 20230101 }

/-- Second innings of `playerA`: 30 runs off 20 balls. -/
def innA2 : InningsDoc :=
  { _id := "000000000000000000000002", player_id := pidA, runs := 30, balls := 20,
    fours := 3, sixes := 0, out := false, opposition := none,
    venue := none, date := some 20230601 }

/-- Example store: two players, two innings belonging to the first. -/
def exDb : DB := ⟨[playerA, playerB], [innA1, innA2]⟩

example : to_object_id pidA = .ok pidA := by decide
example : findPlayer exDb pidA = some playerA := by decide

/-! ## Claims -/

/-- C2: for every non-negative integer `runs` and every `balls <= 0`,
`strike_rate runs balls` returns exactly `0.0` (not an error), even when
`runs > 0` and `balls = 0`. -/
theorem claim_C2_zero_denominator (runs balls : ℤ) (hr : 0 ≤ runs)
    (hb : balls ≤ 0) : strike_rate runs balls = 0 := by
  simp [strike_rate, hb]

/-- Witness for C2 at `runs = 5`, `balls = 0`. -/
theorem claim_C2_zero_denominator_witness : strike_rate 5 0 = 0 :=
  claim_C2_zero_denominator 5 0 (by decide) (by decide)

/-- C5: for every well-formed key with no matching player record in the
store, `get_player` fails with the 404 not-found error — an outcome
distinguishable from the invalid-identifier error — and returns no record
(so no statistics are computed for the nonexistent player). -/
theorem claim_C5_not_found (db : DB) (s oid : String)
    (hparse : to_object_id s = .ok oid)
    (habsent : ∀ p ∈ db.players, p._id ≠ oid) :
    get_player db s = .error .playerNotFound ∧
    ApiError.playerNotFound ≠ ApiError.invalidIdFormat := by
  have hfind : findPlayer db oid = none := by
    apply List.find?_eq_none.mpr
    intro p hp
    simpa using habsent p hp
  exact ⟨by simp [get_player, hparse, hfind], by decide⟩

/-- Witness for C5: a well-formed key absent from the example store. -/
theorem claim_C5_not_found_witness :
    get_player exDb "999999999999999999999999" = .error .playerNotFound ∧
    ApiError.playerNotFound ≠ ApiError.invalidIdFormat :=
  claim_C5_not_found exDb "999999999999999999999999" "999999999999999999999999"
    (by decide) (by decide)

/-- C6: for every innings-creation request whose `player_id` parses but
resolves to no existing player, `add_innings` fails with the 404 not-found
error and the returned store state is unchanged (no write). -/
theorem claim_C6_referential_validation (db : DB) (payload : InningsPayload)
    (newId : String) (now : ℤ) (oid : String)
    (hparse : to_object_id payload.player_id = .ok oid)
    (habsent : ∀ p ∈ db.players, p._id ≠ oid) :
    add_innings db payload newId now = (.error .playerNotFound, db) := by
  have hfind : findPlayer db oid = none := by
    apply List.find?_eq_none.mpr
    intro p hp
    simpa using habsent p hp
  simp [add_innings, hparse, hfind]

/-- Payload referencing a well-formed but nonexistent player id. -/
def orphanInnings : InningsPayload :=
  { player_id := "999999999999999999999999", runs := 10, balls := 5, fours := 1,
    sixes := 0, out := true, opposition := none, venue := none, date := none }

/-- Witness for C6 on the example store. -/
theorem claim_C6_referential_validation_witness :
    add_innings exDb orphanInnings "0000000000000000000000aa" 0 =
      (.error .playerNotFound, exDb) :=
  claim_C6_referential_validation exDb orphanInnings "0000000000000000000000aa" 0
    "999999999999999999999999" (by decide) (by decide)

/-- C7: every input string that is not a well-formed key (wrong length,
some non-hex character, or empty) makes the identifier codec fail with the
invalid-identifier error; `get_player` and `export_player` then return that
same error whatever the store contains (so no store access is needed), and
the outcome is distinguishable from the not-found error.  The codec is a
pure function, so it has no side effects. -/
theorem claim_C7_invalid_identifier (s : String)
    (hbad : s.data.length ≠ 24 ∨ (∃ c ∈ s.data, isHexChar c = false) ∨ s = "") :
    to_object_id s = .error .invalidIdFormat ∧
    (∀ db : DB, get_player db s = .error .invalidIdFormat) ∧
    (∀ (db : DB) (fmt : Option String),
      export_player db s fmt = .error .invalidIdFormat) ∧
    ApiError.invalidIdFormat ≠ ApiError.playerNotFound := by
  have hvalid : oidValid s = false := by
    rw [Bool.eq_false_iff]
    intro htrue
    simp only [oidValid, Bool.and_eq_true, beq_iff_eq, List.all_eq_true] at htrue
    rcases hbad with h | ⟨c, hc, hch⟩ | h
    · exact h htrue.1
    · have := htrue.2 c hc
      simp [hch] at this
    · subst h
      simpa using htrue.1
  refine ⟨?_, fun db => ?_, fun db fmt => ?_, by decide⟩
  · simp [to_object_id, hvalid]
  · simp [get_player, to_object_id, hvalid]
  · simp [export_player, to_object_id, hvalid]

/-- Witness for C7 at the malformed key `"xyz"`. -/
theorem claim_C7_invalid_identifier_witness :
    to_object_id "xyz" = .error .invalidIdFormat ∧
    get_player exDb "xyz" = .error .invalidIdFormat :=
  ⟨(claim_C7_invalid_identifier "xyz" (Or.inl (by decide))).1,
   (claim_C7_invalid_identifier "xyz" (Or.inl (by decide))).2.1 exDb⟩

/-- C9: any innings payload with a field outside its declared bounds, and
any player payload with an empty or over-100-character name, is rejected by
the pydantic bound check with a validation error before the handler runs,
leaving the store unchanged. -/
theorem claim_C9_validation_bounds :
    (∀ (db : DB) (p : InningsPayload) (newId : String) (now : ℤ),
      (p.runs < 0 ∨ 400 < p.runs ∨ p.balls < 0 ∨ 400 < p.balls ∨
       p.fours < 0 ∨ 200 < p.fours ∨ p.sixes < 0 ∨ 200 < p.sixes ∨
       (∃ s, p.opposition = some s ∧ 100 < s.length) ∨
       (∃ s, p.venue = some s ∧ 100 < s.length)) →
      post_innings db p newId now = (.error .validationError, db)) ∧
    (∀ (db : DB) (p : PlayerPayload) (newId : String),
      (p.name.length = 0 ∨ 100 < p.name.length) →
      post_players db p newId = (.error .validationError, db)) := by
  constructor
  · intro db p newId now hviol
    have hok : inningsPayloadOk p = false := by
      rw [Bool.eq_false_iff]
      intro htrue
      simp only [inningsPayloadOk, Bool.and_eq_true, decide_eq_true_eq] at htrue
      obtain ⟨⟨⟨⟨⟨⟨⟨⟨⟨h1, h2⟩, h3⟩, h4⟩, h5⟩, h6⟩, h7⟩, h8⟩, hop⟩, hv⟩ := htrue
      rcases hviol with h | h | h | h | h | h | h | h | ⟨s, hs, hl⟩ | ⟨s, hs, hl⟩
      · omega
      · omega
      · omega
      · omega
      · omega
      · omega
      · omega
      · omega
      · rw [hs] at hop
        simp only [Option.all_some, decide_eq_true_eq] at hop
        omega
      · rw [hs] at hv
        simp only [Option.all_some, decide_eq_true_eq] at hv
        omega
    simp [post_innings, hok]
  · intro db p newId hviol
    have hok : playerPayloadOk p = false := by
      rw [Bool.eq_false_iff]
      intro htrue
      simp only [playerPayloadOk, Bool.and_eq_true, decide_eq_true_eq] at htrue
      omega
    simp [post_players, hok]

/-- Innings payload violating the runs bound. -/
def overRunsInnings : InningsPayload :=
  { player_id := pidA, runs := 500, balls := 40, fours := 0, sixes := 0,
    out := true, opposition := none, venue := none, date := none }

/-- Player payload with an empty name. -/
def emptyNamePlayer : PlayerPayload := ⟨"", none⟩

/-- Witness for C9: an out-of-range innings payload and an empty player name
are both rejected without touching the example store. -/
theorem claim_C9_validation_bounds_witness :
    post_innings exDb overRunsInnings "0000000000000000000000aa" 0 =
      (.error .validationError, exDb) ∧
    post_players exDb emptyNamePlayer "0000000000000000000000ab" =
      (.error .validationError, exDb) :=
  ⟨claim_C9_validation_bounds.1 exDb overRunsInnings "0000000000000000000000aa" 0
     (Or.inr (Or.inl (by decide))),
   claim_C9_validation_bounds.2 exDb emptyNamePlayer "0000000000000000000000ab"
     (Or.inl (by decide))⟩

/-- The round-half-to-even integer is within one half of its argument. -/
theorem roundHalfEven_abs_le (q : ℚ) : |(roundHalfEven q : ℚ) - q| ≤ 1/2 := by
  have h0 : (⌊q⌋ : ℚ) ≤ q := Int.floor_le q
  have h1 : q < ⌊q⌋ + 1 := Int.lt_floor_add_one q
  unfold roundHalfEven
  split_ifs with hlt hgt hev
  · rw [abs_sub_le_iff]
    exact ⟨by linarith, by linarith⟩
  · have hge : 1/2 ≤ q - ⌊q⌋ := le_of_not_lt hlt
    rw [abs_sub_le_iff]
    push_cast
    exact ⟨by linarith, by linarith⟩
  · have hle : q - ⌊q⌋ ≤ 1/2 := le_of_not_lt hgt
    rw [abs_sub_le_iff]
    exact ⟨by linarith, by linarith⟩
  · have hge : 1/2 ≤ q - ⌊q⌋ := le_of_not_lt hlt
    rw [abs_sub_le_iff]
    push_cast
    exact ⟨by linarith, by linarith⟩

/-- `round2` is within half a hundredth of its argument. -/
theorem round2_abs_le (y : ℚ) : |round2 y - y| ≤ 1/200 := by
  have h := roundHalfEven_abs_le (y * 100)
  have heq : round2 y - y = ((roundHalfEven (y * 100) : ℚ) - y * 100) / 100 := by
    simp only [round2]
    ring
  rw [heq, abs_div, show |(100 : ℚ)| = 100 by norm_num,
    div_le_iff₀ (show (0 : ℚ) < 100 by norm_num)]
  linarith

/-- Positive-branch unfolding of `strike_rate`. -/
theorem strike_rate_pos (runs balls : ℤ) (hb : 0 < balls) :
    strike_rate runs balls = round2 (fl (fl ((runs : ℚ) / (balls : ℚ)) * 100)) := by
  simp [strike_rate, not_le.mpr hb]

/-- Evaluation rule for `fl` on positives: if `q * 2 ^ k` lies in the binade
`[2 ^ 52, 2 ^ 53)` and rounds to the mantissa `m`, then `fl q = m / 2 ^ k`. -/
theorem fl_eval (q : ℚ) (k : ℕ) (m : ℤ) (hq : 0 < q)
    (h1 : (2:ℚ) ^ (52:ℕ) ≤ q * (2:ℚ) ^ k) (h2 : q * (2:ℚ) ^ k < (2:ℚ) ^ (53:ℕ))
    (hm : roundHalfEven (q * (2:ℚ) ^ k) = m) :
    fl q = (m : ℚ) / (2:ℚ) ^ k := by
  have hq0 : q ≠ 0 := ne_of_gt hq
  have habs : |q| = q := abs_of_pos hq
  have h2Q : ((2:ℕ):ℚ) = (2:ℚ) := by norm_num
  have e52 : (2:ℚ) ^ ((52:ℤ)) = (2:ℚ) ^ (52:ℕ) := by norm_num
  have e53 : (2:ℚ) ^ ((53:ℤ)) = (2:ℚ) ^ (53:ℕ) := by norm_num
  have ek : (2:ℚ) ^ ((k:ℤ)) = (2:ℚ) ^ k := zpow_natCast 2 k
  have hkpos : (0:ℚ) < (2:ℚ) ^ ((k:ℤ)) := zpow_pos (by norm_num) _
  have hx : ((2:ℕ):ℚ) ^ ((52:ℤ) - (k:ℤ)) ≤ q := by
    rw [h2Q, zpow_sub₀ (show (2:ℚ) ≠ 0 by norm_num), div_le_iff₀ hkpos, e52, ek]
    exact h1
  have hy : q < ((2:ℕ):ℚ) ^ (((52:ℤ) - (k:ℤ)) + 1) := by
    have h5 : ((52:ℤ) - (k:ℤ)) + 1 = (53:ℤ) - (k:ℤ) := by ring
    rw [h2Q, h5, zpow_sub₀ (show (2:ℚ) ≠ 0 by norm_num), lt_div_iff₀ hkpos, e53, ek]
    exact h2
  have ha := (Int.zpow_le_iff_le_log (show 1 < 2 by norm_num) hq).mp hx
  have hbb := (Int.lt_zpow_iff_log_lt (show 1 < 2 by norm_num) hq).mp hy
  have hlog : Int.log 2 q = (52:ℤ) - (k:ℤ) := by omega
  simp only [fl, if_neg hq0, habs, hlog]
  have he : ((52:ℤ) - (k:ℤ)) - 52 = -(k:ℤ) := by ring
  rw [he, zpow_neg, div_inv_eq_mul, ek, hm, ← div_eq_mul_inv]

/-- One binary64 rounding of a positive value has absolute error at most
the value times `2 ^ (-53)`. -/
theorem fl_error (q : ℚ) (hq : 0 < q) : |fl q - q| ≤ q / 2 ^ 53 := by
  have hq0 : q ≠ 0 := ne_of_gt hq
  have habs : |q| = q := abs_of_pos hq
  have h2e : (0:ℚ) < (2:ℚ) ^ (Int.log 2 q - 52) := zpow_pos (by norm_num) _
  have hh := roundHalfEven_abs_le (q / (2:ℚ) ^ (Int.log 2 q - 52))
  have hrw : fl q - q = ((roundHalfEven (q / (2:ℚ) ^ (Int.log 2 q - 52)) : ℚ) -
      q / (2:ℚ) ^ (Int.log 2 q - 52)) * (2:ℚ) ^ (Int.log 2 q - 52) := by
    simp only [fl, if_neg hq0, habs]
    rw [sub_mul, div_mul_cancel₀ _ (ne_of_gt h2e)]
  have hle : (2:ℚ) ^ (Int.log 2 q - 52) * 4503599627370496 ≤ q := by
    calc (2:ℚ) ^ (Int.log 2 q - 52) * 4503599627370496
        = (2:ℚ) ^ (Int.log 2 q - 52) * (2:ℚ) ^ ((52:ℤ)) := by norm_num
      _ = (2:ℚ) ^ (Int.log 2 q - 52 + 52) :=
        (zpow_add₀ (show (2:ℚ) ≠ 0 by norm_num) _ _).symm
      _ = (2:ℚ) ^ (Int.log 2 q) := by rw [sub_add_cancel]
      _ ≤ q := by
        have h := Int.zpow_log_le_self (b := 2) (R := ℚ) (show (1:ℕ) < 2 by norm_num) hq
        simpa using h
  rw [hrw, abs_mul, abs_of_pos h2e]
  have hstep : |(roundHalfEven (q / (2:ℚ) ^ (Int.log 2 q - 52)) : ℚ) -
      q / (2:ℚ) ^ (Int.log 2 q - 52)| * (2:ℚ) ^ (Int.log 2 q - 52) ≤
      (1/2) * (2:ℚ) ^ (Int.log 2 q - 52) :=
    mul_le_mul_of_nonneg_right hh (le_of_lt h2e)
  have hfin : (2:ℚ) ^ (53:ℕ) = 9007199254740992 := by norm_num
  rw [hfin]
  linarith

/-- The two float roundings followed by the decimal rounding keep
`strike_rate` within half a hundredth plus a small relative float error of
the exact ratio. -/
theorem strike_rate_close (runs balls : ℤ) (hr : 0 ≤ runs) (hb : 0 < balls) :
    |strike_rate runs balls - (runs : ℚ) / (balls : ℚ) * 100| ≤
      1 / 200 + ((runs : ℚ) / (balls : ℚ) * 100) / 2 ^ 51 := by
  have hbQ : (0:ℚ) < (balls : ℚ) := by exact_mod_cast hb
  have hrQ : (0:ℚ) ≤ (runs : ℚ) := by exact_mod_cast hr
  rw [strike_rate_pos runs balls hb]
  have hx0 : 0 ≤ (runs : ℚ) / (balls : ℚ) := div_nonneg hrQ (le_of_lt hbQ)
  rcases eq_or_lt_of_le hx0 with h0 | h0
  · rw [← h0]
    norm_num [fl, round2, roundHalfEven]
  · set x0 : ℚ := (runs : ℚ) / (balls : ℚ) with hx0def
    have ha := fl_error x0 h0
    have hafl : 0 < fl x0 := by
      rcases abs_le.mp ha with ⟨ha1, _⟩
      have hlt : x0 / 2 ^ 53 < x0 := div_lt_self h0 (by norm_num)
      linarith
    have hb2 := fl_error (fl x0 * 100) (mul_pos hafl (by norm_num))
    have hround := round2_abs_le (fl (fl x0 * 100))
    rcases abs_le.mp ha with ⟨ha1, ha2⟩
    rcases abs_le.mp hb2 with ⟨hb1, hb2m⟩
    rcases abs_le.mp hround with ⟨hc1, hc2⟩
    rw [abs_le]
    have e53 : (2:ℚ) ^ (53:ℕ) = 9007199254740992 := by norm_num
    have e51 : (2:ℚ) ^ (51:ℕ) = 2251799813685248 := by norm_num
    rw [e53] at ha1 ha2 hb1 hb2m
    rw [e51]
    constructor <;> linarith

/-- Concrete program value: 125.0 at 50 runs off 40 balls. -/
theorem strike_rate_50_40 : strike_rate 50 40 = 125 := by
  have h1 : fl (((50:ℤ):ℚ) / ((40:ℤ):ℚ)) = ((5629499534213120:ℤ):ℚ) / 2 ^ 52 :=
    fl_eval _ 52 5629499534213120 (by norm_num) (by norm_num) (by norm_num)
      (by norm_num [roundHalfEven])
  have h2 : fl (((5629499534213120:ℤ):ℚ) / 2 ^ 52 * 100) =
      ((8796093022208000:ℤ):ℚ) / 2 ^ 46 :=
    fl_eval _ 46 8796093022208000 (by norm_num) (by norm_num) (by norm_num)
      (by norm_num [roundHalfEven])
  rw [strike_rate_pos 50 40 (by norm_num), h1, h2]
  norm_num [round2, roundHalfEven]

/-- Concrete program value: 157.14 at 33 runs off 21 balls. -/
theorem strike_rate_33_21 : strike_rate 33 21 = 157.14 := by
  have h1 : fl (((33:ℤ):ℚ) / ((21:ℤ):ℚ)) = ((7077085128725065:ℤ):ℚ) / 2 ^ 52 :=
    fl_eval _ 52 7077085128725065 (by norm_num) (by norm_num) (by norm_num)
      (by norm_num [roundHalfEven])
  have h2 : fl (((7077085128725065:ℤ):ℚ) / 2 ^ 52 * 100) =
      ((5528972756816457:ℤ):ℚ) / 2 ^ 45 :=
    fl_eval _ 45 5528972756816457 (by norm_num) (by norm_num) (by norm_num)
      (by norm_num [roundHalfEven])
  rw [strike_rate_pos 33 21 (by norm_num), h1, h2]
  norm_num [round2, roundHalfEven]

/-- Concrete program value: 133.33 at 80 runs off 60 balls. -/
theorem strike_rate_80_60 : strike_rate 80 60 = 133.33 := by
  have h1 : fl (((80:ℤ):ℚ) / ((60:ℤ):ℚ)) = ((6004799503160661:ℤ):ℚ) / 2 ^ 52 :=
    fl_eval _ 52 6004799503160661 (by norm_num) (by norm_num) (by norm_num)
      (by norm_num [roundHalfEven])
  have h2 : fl (((6004799503160661:ℤ):ℚ) / 2 ^ 52 * 100) =
      ((4691249611844266:ℤ):ℚ) / 2 ^ 45 :=
    fl_eval _ 45 4691249611844266 (by norm_num) (by norm_num) (by norm_num)
      (by norm_num [roundHalfEven])
  rw [strike_rate_pos 80 60 (by norm_num), h1, h2]
  norm_num [round2, roundHalfEven]

/-- Concrete program value: 14.37 at 23 runs off 160 balls — the float
product `14.374999999999998…` lies below the tie `14.375`. -/
theorem strike_rate_23_160 : strike_rate 23 160 = 1437 / 100 := by
  have h1 : fl (((23:ℤ):ℚ) / ((160:ℤ):ℚ)) = ((5179139571476070:ℤ):ℚ) / 2 ^ 55 :=
    fl_eval _ 55 5179139571476070 (by norm_num) (by norm_num) (by norm_num)
      (by norm_num [roundHalfEven])
  have h2 : fl (((5179139571476070:ℤ):ℚ) / 2 ^ 55 * 100) =
      ((8092405580431359:ℤ):ℚ) / 2 ^ 49 :=
    fl_eval _ 49 8092405580431359 (by norm_num) (by norm_num) (by norm_num)
      (by norm_num [roundHalfEven])
  rw [strike_rate_pos 23 160 (by norm_num), h1, h2]
  norm_num [round2, roundHalfEven]

/-- C8 (amended): for positive `balls` and non-negative `runs`,
`strike_rate` is the binary64 evaluation of `runs / balls * 100` (a float
division then a float multiplication) rounded to two fractional digits
half-to-even — the rounding applies to the float value, not to the exact
ratio — so the result is an integer number of hundredths within `1/200`
plus a `2 ^ (-51)` relative float error of the exact ratio; the pinned
values `strike_rate 50 40 = 125.0` and `strike_rate 33 21 = 157.14` hold. -/
theorem claim_C8_strike_rate_formula :
    (∀ runs balls : ℤ, 0 ≤ runs → 0 < balls →
      strike_rate runs balls = round2 (fl (fl ((runs : ℚ) / (balls : ℚ)) * 100)) ∧
      (∃ n : ℤ, strike_rate runs balls = (n : ℚ) / 100) ∧
      |strike_rate runs balls - (runs : ℚ) / (balls : ℚ) * 100| ≤
        1 / 200 + ((runs : ℚ) / (balls : ℚ) * 100) / 2 ^ 51) ∧
    strike_rate 50 40 = 125 ∧ strike_rate 33 21 = 157.14 := by
  refine ⟨fun runs balls hr hb => ?_, strike_rate_50_40, strike_rate_33_21⟩
  exact ⟨strike_rate_pos runs balls hb,
    ⟨roundHalfEven (fl (fl ((runs : ℚ) / (balls : ℚ)) * 100) * 100), by
      rw [strike_rate_pos runs balls hb]; rfl⟩,
    strike_rate_close runs balls hr hb⟩

/-- Witness for C8 at `runs = 33`, `balls = 21`. -/
theorem claim_C8_strike_rate_formula_witness :
    strike_rate 33 21 = round2 (fl (fl (((33:ℤ) : ℚ) / ((21:ℤ) : ℚ)) * 100)) ∧
    (∃ n : ℤ, strike_rate 33 21 = (n : ℚ) / 100) ∧
    |strike_rate 33 21 - ((33:ℤ) : ℚ) / ((21:ℤ) : ℚ) * 100| ≤
      1 / 200 + (((33:ℤ) : ℚ) / ((21:ℤ) : ℚ) * 100) / 2 ^ 51 :=
  claim_C8_strike_rate_formula.1 33 21 (by decide) (by decide)

/-- Counterexample to C8 as stated: at 23 runs off 160 balls the exact
ratio is 14.375, which every round-half rule takes to 14.38, yet the
program — rounding the float product, which lies just below the tie —
returns 14.37. -/
theorem claim_C8_counterexample :
    strike_rate 23 160 = 1437 / 100 ∧
    ((23:ℤ) : ℚ) / ((160:ℤ) : ℚ) * 100 = 14375 / 1000 ∧
    round2 (((23:ℤ) : ℚ) / ((160:ℤ) : ℚ) * 100) = 1438 / 100 ∧
    ((⌊((23:ℤ) : ℚ) / ((160:ℤ) : ℚ) * 100 * 100 + 1 / 2⌋ : ℤ) : ℚ) / 100 = 1438 / 100 ∧
    strike_rate 23 160 ≠ round2 (((23:ℤ) : ℚ) / ((160:ℤ) : ℚ) * 100) := by
  have h1 : strike_rate 23 160 = 1437 / 100 := strike_rate_23_160
  have h3 : round2 (((23:ℤ) : ℚ) / ((160:ℤ) : ℚ) * 100) = 1438 / 100 := by
    norm_num [round2, roundHalfEven]
  refine ⟨h1, by norm_num, h3, by norm_num, ?_⟩
  rw [h1, h3]
  norm_num

/-- C1: the career aggregate of `list_players` and of `get_player` consists
of the field-wise sums and the record count over the innings whose foreign
key matches the player, with `strike_rate` derived from the summed runs and
balls; concretely, the example player with innings 50/40 and 30/20 has
totals 80/60 with strike rate 133.33, and the example player with zero
innings has all-zero totals and strike rate 0.0. -/
theorem claim_C1_career_aggregation :
    (∀ db : DB, list_players db = db.players.map (fun p =>
      let m := inningsMatching db.innings p._id
      { _id := p._id, name := p.name, role := p.role,
        total_runs := (m.map InningsDoc.runs).sum,
        total_balls := (m.map InningsDoc.balls).sum,
        total_fours := (m.map InningsDoc.fours).sum,
        total_sixes := (m.map InningsDoc.sixes).sum,
        innings_count := m.length,
        strike_rate := strike_rate ((m.map InningsDoc.runs).sum)
          ((m.map InningsDoc.balls).sum) })) ∧
    (∀ (db : DB) (s oid : String) (p : PlayerDoc),
      to_object_id s = .ok oid → findPlayer db oid = some p → s = p._id →
      ∃ d, get_player db s = .ok d ∧
        d.career =
          { total_runs := ((inningsMatching db.innings p._id).map InningsDoc.runs).sum,
            total_balls := ((inningsMatching db.innings p._id).map InningsDoc.balls).sum,
            total_fours := ((inningsMatching db.innings p._id).map InningsDoc.fours).sum,
            total_sixes := ((inningsMatching db.innings p._id).map InningsDoc.sixes).sum,
            innings_count := (inningsMatching db.innings p._id).length,
            strike_rate := strike_rate
              (((inningsMatching db.innings p._id).map InningsDoc.runs).sum)
              (((inningsMatching db.innings p._id).map InningsDoc.balls).sum) }) ∧
    (get_player exDb pidA).map PlayerDetail.career =
      .ok { total_runs := 80, total_balls := 60, total_fours := 8, total_sixes := 1,
            innings_count := 2, strike_rate := strike_rate 80 60 } ∧
    strike_rate 80 60 = 133.33 ∧
    (get_player exDb pidB).map PlayerDetail.career =
      .ok { total_runs := 0, total_balls := 0, total_fours := 0, total_sixes := 0,
            innings_count := 0, strike_rate := 0 } ∧
    (list_players exDb).map (fun e => (e.total_runs, e.total_balls, e.innings_count)) =
      [(80, 60, 2), (0, 0, 0)] := by
  refine ⟨fun db => rfl, ?_, rfl, strike_rate_80_60, rfl, rfl⟩
  intro db s oid p h1 h2 h3
  subst h3
  simp only [get_player, h1, h2]
  exact ⟨_, rfl, rfl⟩

/-- Witness for C1 at the example store and the canonical key of the first
player. -/
theorem claim_C1_career_aggregation_witness :
    ∃ d, get_player exDb pidA = .ok d ∧
      d.career =
        { total_runs := ((inningsMatching exDb.innings playerA._id).map InningsDoc.runs).sum,
          total_balls := ((inningsMatching exDb.innings playerA._id).map InningsDoc.balls).sum,
          total_fours := ((inningsMatching exDb.innings playerA._id).map InningsDoc.fours).sum,
          total_sixes := ((inningsMatching exDb.innings playerA._id).map InningsDoc.sixes).sum,
          innings_count := (inningsMatching exDb.innings playerA._id).length,
          strike_rate := strike_rate
            (((inningsMatching exDb.innings playerA._id).map InningsDoc.runs).sum)
            (((inningsMatching exDb.innings playerA._id).map InningsDoc.balls).sum) } :=
  claim_C1_career_aggregation.2.1 exDb pidA pidA playerA (by decide) (by decide) rfl

/-! ## Fixtures for the sort-order claims -/

/-- Canonical id of the three-innings example player. -/
def pid3 : String := "abcdefabcdefabcdefabcdef"

/-- The three-innings example player. -/
def player3 : PlayerDoc := ⟨pid3, "Cara", none⟩

/-- Innings dated 2023-01-01. -/
def inn31 : InningsDoc :=
  { _id := "000000000000000000000031", player_id := pid3, runs := 10, balls := 10,
    fours := 1, sixes := 0, out := true, opposition := none, venue := none,
    date := some 20230101 }

/-- Innings dated 2023-06-01. -/
def inn32 : InningsDoc :=
  { _id := "000000000000000000000032", player_id := pid3, runs := 20, balls := 10,
    fours := 2, sixes := 1, out := false, opposition := none, venue := none,
    date := some 20230601 }

/-- Innings dated 2023-03-01. -/
def inn33 : InningsDoc :=
  { _id := "000000000000000000000033", player_id := pid3, runs := 5, balls := 8,
    fours := 0, sixes := 0, out := true, opposition := none, venue := none,
    date := some 20230301 }

/-- Store with one player and three innings dated 2023-01-01, 2023-06-01 and
2023-03-01, inserted in that order. -/
def db3 : DB := ⟨[player3], [inn31, inn32, inn33]⟩

/-- The date column of an export result. -/
def exportDates : ExportResult → List (Option ℤ)
  | .jsonBody b => b.innings.map InningsDoc.date
  | .csvFile _ rows => rows.map CsvRow.date

/-- Detail view of the three-innings player (dates descending). -/
def detail3 : PlayerDetail :=
  { _id := pid3, name := "Cara", role := none,
    innings := [annotate inn32, annotate inn33, annotate inn31],
    career := { total_runs := 35, total_balls := 28, total_fours := 3,
                total_sixes := 1, innings_count := 3,
                strike_rate := strike_rate 35 28 } }

/-- JSON export body of the three-innings player (dates ascending). -/
def body3 : ExportJson := ⟨⟨pid3, "Cara", none⟩, [inn31, inn33, inn32]⟩

/-- C3: for the player with innings dated 2023-01-01, 2023-06-01 and
2023-03-01, `get_player` lists them most recent first and `export_player`
lists them oldest first; in general, the detail view innings are sorted
descending by date and are a permutation of the matching innings set, and
the export innings are sorted ascending by date and are a permutation of
the same set. -/
theorem claim_C3_sort_order :
    ((get_player db3 pid3).map (fun d => d.innings.map (fun v => v.doc.date)) =
      .ok [some 20230601, some 20230301, some 20230101]) ∧
    ((export_player db3 pid3 (some "json")).map exportDates =
      .ok [some 20230101, some 20230301, some 20230601]) ∧
    ((export_player db3 pid3 none).map exportDates =
      .ok [some 20230101, some 20230301, some 20230601]) ∧
    (∀ (db : DB) (s : String) (d : PlayerDetail), get_player db s = .ok d →
      List.Sorted inningsDateDesc (d.innings.map InningsView.doc) ∧
      List.Perm (d.innings.map InningsView.doc) (inningsMatching db.innings s)) ∧
    (∀ (db : DB) (s : String) (b : ExportJson),
      export_player db s (some "json") = .ok (.jsonBody b) →
      List.Sorted inningsDateAsc b.innings ∧
      List.Perm b.innings (inningsMatching db.innings s)) := by
  refine ⟨by decide, by decide, by decide, ?_, ?_⟩
  · intro db s d h
    rcases hto : to_object_id s with e | oid
    · simp [get_player, hto] at h
    · rcases hfp : findPlayer db oid with _ | p
      · simp [get_player, hto, hfp] at h
      · simp only [get_player, hto, hfp, Except.ok.injEq] at h
        subst h
        constructor
        · rw [List.map_map]
          have : (InningsView.doc ∘ annotate) = id := rfl
          rw [this, List.map_id]
          exact List.sorted_insertionSort inningsDateDesc _
        · rw [List.map_map]
          have : (InningsView.doc ∘ annotate) = id := rfl
          rw [this, List.map_id]
          exact List.perm_insertionSort inningsDateDesc _
  · intro db s b h
    rcases hto : to_object_id s with e | oid
    · simp [export_player, hto] at h
    · rcases hfp : findPlayer db oid with _ | p
      · simp [export_player, hto, hfp] at h
      · simp only [export_player, hto, hfp, beq_self_eq_true, if_true,
          Except.ok.injEq, ExportResult.jsonBody.injEq] at h
        subst h
        exact ⟨List.sorted_insertionSort inningsDateAsc _,
          List.perm_insertionSort inningsDateAsc _⟩

/-- Witness for C3: the sortedness and permutation facts instantiated on the
three-innings store. -/
theorem claim_C3_sort_order_witness :
    (List.Sorted inningsDateDesc (detail3.innings.map InningsView.doc) ∧
     List.Perm (detail3.innings.map InningsView.doc) (inningsMatching db3.innings pid3)) ∧
    (List.Sorted inningsDateAsc body3.innings ∧
     List.Perm body3.innings (inningsMatching db3.innings pid3)) :=
  ⟨claim_C3_sort_order.2.2.2.1 db3 pid3 detail3 rfl,
   claim_C3_sort_order.2.2.2.2 db3 pid3 body3 rfl⟩

/-- C10: when a well-formed key differs from the canonical lowercase form of
a stored player id only in spelling, `get_player` (and `export_player`)
still finds the player — the lookup uses the parsed, canonicalised id — but
selects innings by exact string equality with the raw input, so the response
has an empty innings list and an all-zero career even though innings
referencing the player exist under the canonical spelling. -/
theorem claim_C10_raw_string_filter (db : DB) (s : String) (p : PlayerDoc)
    (hvalid : oidValid s = true)
    (hlower : strToLower s = p._id)
    (hdiff : s ≠ p._id)
    (hfind : findPlayer db (strToLower s) = some p)
    (hraw : ∀ i ∈ db.innings, i.player_id ≠ s) :
    (∃ d, get_player db s = .ok d ∧ d._id = p._id ∧ d.innings = [] ∧
      d.career = { total_runs := 0, total_balls := 0, total_fours := 0,
                   total_sixes := 0, innings_count := 0, strike_rate := 0 }) ∧
    (∃ b, export_player db s (some "json") = .ok (.jsonBody b) ∧
      b.player._id = p._id ∧ b.innings = []) := by
  have hto : to_object_id s = .ok (strToLower s) := by
    simp [to_object_id, hvalid]
  have hfilter : inningsMatching db.innings s = [] := by
    apply List.filter_eq_nil_iff.mpr
    intro i hi
    simpa using hraw i hi
  constructor
  · refine ⟨{ _id := p._id, name := p.name, role := p.role, innings := [],
              career := ⟨0, 0, 0, 0, 0, 0⟩ }, ?_, rfl, rfl, rfl⟩
    simp only [get_player, hto, hfind, hfilter, aggregateInnings, careerOf]
    simp [strike_rate, List.insertionSort, inningsMatching, hfilter]
  · refine ⟨⟨⟨p._id, p.name, p.role⟩, []⟩, ?_, rfl, rfl⟩
    simp only [export_player, hto, hfind, hfilter]
    simp [List.insertionSort]

/-- The uppercase spelling of the first example player id. -/
def sUpperA : String := "AABBCCDDEEFF001122334455"

/-- Witness for C10: the uppercase spelling of the first example player id
against the example store (which does hold innings for that player under
the canonical spelling). -/
theorem claim_C10_raw_string_filter_witness :
    ((∃ d, get_player exDb sUpperA = .ok d ∧ d._id = playerA._id ∧ d.innings = [] ∧
      d.career = { total_runs := 0, total_balls := 0, total_fours := 0,
                   total_sixes := 0, innings_count := 0, strike_rate := 0 }) ∧
     (∃ b, export_player exDb sUpperA (some "json") = .ok (.jsonBody b) ∧
       b.player._id = playerA._id ∧ b.innings = [])) ∧
    inningsMatching exDb.innings playerA._id ≠ [] :=
  ⟨claim_C10_raw_string_filter exDb sUpperA playerA (by decide) (by decide)
    (by decide) (by decide) (by decide), by decide⟩

/-- Removal of the per-innings strike-rate annotation from a rendered item. -/
def dropStrikeKey (l : List (String × Value)) : List (String × Value) :=
  l.filter (fun kv => kv.fst != "strike_rate")

/-- Dropping the annotation from a rendered detail item leaves exactly the
rendered stored document. -/
theorem dropStrikeKey_kvOfView (v : InningsView) :
    dropStrikeKey (kvOfView v) = kvOfDoc v.doc := rfl

/-- A rendered stored document carries no strike-rate key. -/
theorem kvOfDoc_lookup_strike_rate (i : InningsDoc) :
    (kvOfDoc i).lookup "strike_rate" = none := rfl

/-- C4 (amended): `export_player` fails with the same error as `get_player`
on the same key; on success the JSON export carries the same player fields
and the same stored innings records as the detail view, re-sorted ascending
by date — but, unlike the detail view, its innings items carry no
per-innings strike-rate annotation (and the body has no career block). -/
theorem claim_C4_export_matches_detail :
    (∀ (db : DB) (s : String) (fmt : Option String) (e : ApiError),
      export_player db s fmt = .error e ↔ get_player db s = .error e) ∧
    (∀ (db : DB) (s : String) (d : PlayerDetail) (b : ExportJson),
      get_player db s = .ok d →
      export_player db s (some "json") = .ok (.jsonBody b) →
      b.player._id = d._id ∧ b.player.name = d.name ∧ b.player.role = d.role ∧
      List.Sorted inningsDateAsc b.innings ∧
      List.Perm (b.innings.map kvOfDoc)
        (d.innings.map (fun v => dropStrikeKey (kvOfView v))) ∧
      ∀ l ∈ b.innings.map kvOfDoc, l.lookup "strike_rate" = none) := by
  constructor
  · intro db s fmt e
    rcases hto : to_object_id s with e0 | oid
    · simp [export_player, get_player, hto]
    · rcases hfp : findPlayer db oid with _ | p
      · simp [export_player, get_player, hto, hfp]
      · rcases hfmt : (fmt == some "json") with _ | _ <;>
          simp [export_player, get_player, hto, hfp, hfmt]
  · intro db s d b hg he
    rcases hto : to_object_id s with e0 | oid
    · simp [get_player, hto] at hg
    · rcases hfp : findPlayer db oid with _ | p
      · simp [get_player, hto, hfp] at hg
      · simp only [get_player, hto, hfp, Except.ok.injEq] at hg
        simp only [export_player, hto, hfp, beq_self_eq_true, if_true,
          Except.ok.injEq, ExportResult.jsonBody.injEq] at he
        subst hg
        subst he
        refine ⟨rfl, rfl, rfl, List.sorted_insertionSort inningsDateAsc _, ?_, ?_⟩
        · rw [List.map_map]
          have hdrop : ((fun v => dropStrikeKey (kvOfView v)) ∘ annotate) = kvOfDoc := by
            funext i
            exact dropStrikeKey_kvOfView (annotate i)
          rw [hdrop]
          exact List.Perm.map kvOfDoc
            ((List.perm_insertionSort inningsDateAsc _).trans
              (List.perm_insertionSort inningsDateDesc _).symm)
        · intro l hl
          obtain ⟨i, _, rfl⟩ := List.mem_map.mp hl
          exact kvOfDoc_lookup_strike_rate i

/-- JSON export body produced for the first example player (ascending). -/
def body4 : ExportJson := ⟨⟨pidA, "Alice", some "Batter"⟩, [innA1, innA2]⟩

/-- Detail view produced for the first example player (descending). -/
def detail4 : PlayerDetail :=
  ⟨pidA, "Alice", some "Batter", [annotate innA2, annotate innA1],
   ⟨80, 60, 8, 1, 2, strike_rate 80 60⟩⟩

/-- Witness for C4 (amended) at the first example player. -/
theorem claim_C4_export_matches_detail_witness :
    body4.player._id = detail4._id ∧ body4.player.name = detail4.name ∧
    body4.player.role = detail4.role ∧ List.Sorted inningsDateAsc body4.innings ∧
    List.Perm (body4.innings.map kvOfDoc)
      (detail4.innings.map (fun v => dropStrikeKey (kvOfView v))) ∧
    ∀ l ∈ body4.innings.map kvOfDoc, l.lookup "strike_rate" = none :=
  claim_C4_export_matches_detail.2 exDb pidA detail4 body4 rfl rfl

/-- Counterexample to C4 as stated: on the first example player, the JSON
export body is not the detail-view data re-sorted — its innings items (in
either order) differ from the annotated detail items, because the export
items carry no strike-rate key while every detail item does; the export
body also contains no career aggregate at all. -/
theorem claim_C4_counterexample :
    export_player exDb pidA (some "json") = .ok (.jsonBody body4) ∧
    get_player exDb pidA = .ok detail4 ∧
    detail4.innings ≠ [] ∧
    body4.innings.map kvOfDoc ≠ detail4.innings.map kvOfView ∧
    (body4.innings.map kvOfDoc).reverse ≠ detail4.innings.map kvOfView ∧
    ((kvOfView (annotate innA1)).lookup "strike_rate").isSome = true ∧
    (kvOfDoc innA1).lookup "strike_rate" = none :=
  ⟨rfl, rfl, by decide, by decide, by decide, by decide, rfl⟩

end Cricket
